import Mathlib

/-!
# Verification of the concurrent pagination engine in `main.go`

This file gives a shallow embedding of the Go data-export client
(`fetch_data_with_go`, file `main.go`) and proves/refutes the frozen
claims about it.

Conventions of the embedding:
* Go `interface{}` cell values decoded from JSON are modelled by `Cell`
  (null, string, number).
* Go maps used as JSON objects are modelled as association lists
  (`List (String × _)`), with `List.lookup` standing for Go map lookup.
* Go machine integers in this program only hold small non-negative
  counts (page sizes, offsets, row counts), so they are modelled as
  `Nat`; Go integer division `(a + b - 1) / b` on non-negative values
  coincides with `Nat` division.
* The concurrent parts (the task channel, the worker pool) are modelled
  by an explicit small-step transition relation in which channel receive
  is one atomic step, which is exactly the Go channel guarantee.
-/

namespace FetchGo

/-- A decoded JSON cell value as it appears in a row of the response
(`[][]interface{}` in `main.go`).  JSON yields null, strings, numbers
and booleans; the distinction that matters to the claims is
null vs. string, so numbers/booleans are carried abstractly by their
`fmt.Sprintf("%v", ...)` display string. -/
inductive Cell where
  | null : Cell
  | str (s : String) : Cell
  | other (display : String) : Cell
deriving DecidableEq, Repr

/-- The `%v` display string of a non-null cell (Go `fmt.Sprintf("%v", cell)`):
a string displays as itself, other values by their display form. -/
def Cell.display : Cell → String
  | .null => ""
  | .str s => s
  | .other d => d

/-- Embedding of `main.go` lines 378–384: the ResultSink's cell-to-string
coercion.  A nil cell becomes `"\t"`; any other cell becomes
`fmt.Sprintf("\t%v", cell)`, i.e. a tab followed by its display string. -/
def cellToString (c : Cell) : String :=
  match c with
  | .null => "\t"
  | c => "\t" ++ c.display

/-- Embedding of the per-row loop at `main.go` lines 376–385: each cell of
the record is coerced to its output string. -/
def rowToStrings (row : List Cell) : List String :=
  row.map cellToString

/-- Embedding of `main.go` line 336:
`totalPages := (totalCount + df.pageSize - 1) / df.pageSize`.
On the non-negative values this program uses, Go integer division is
`Nat` division. -/
def totalPagesOf (totalCount pageSize : Nat) : Nat :=
  (totalCount + pageSize - 1) / pageSize

/-- A page task as sent on the `tasks` channel
(`struct { pageNum int; offset int }`, `main.go` lines 358–361). -/
structure PageTask where
  pageNum : Nat
  offset : Nat
deriving DecidableEq, Repr

/-- Embedding of the task-population loop at `main.go` lines 394–410 in
the absence of cancellation: for `page = 0 .. totalPages-1` it enqueues
`{pageNum: page + 1, offset: page * pageSize}`, in that order. -/
def genTasks (totalCount pageSize : Nat) : List PageTask :=
  (List.range (totalPagesOf totalCount pageSize)).map
    (fun page => ⟨page + 1, page * pageSize⟩)

/-- One named block of the decoded response
(`Response.Blocks` element, `main.go` lines 65–72): a rows array and a
count attribute.  JSON omission of `count` decodes to Go's zero value,
so an absent count is the value `0` here, exactly as in the Go struct. -/
structure RespBlock where
  rows : List (List Cell)
  count : Nat
deriving Repr

/-- The decoded response envelope (`Response`, `main.go` lines 65–72):
its `__blocks__` JSON object, modelled as an association list keyed by
block name. -/
structure Resp where
  blocks : List (String × RespBlock)
deriving Repr

/-! ## The single page fetch (`fetchData`, `main.go` lines 239–288) -/

/-- What the HTTP layer hands back to `fetchData`: either a transport-level
error (from `client.Do` or from reading the body — Go lines 259–269) or a
complete response with a status code and a body.  The 30s client timeout
surfaces as a transport error. -/
inductive HTTPOutcome where
  | transportErr (msg : String)
  | response (status : Nat) (body : String)
deriving Repr

/-- The failure cases `fetchData` can return (its wrapped `error` values):
`transport` for request/read errors (line 261, 268), `httpStatus` for the
status check at line 271–273 (carrying the code and the full body), and
`decode` for `json.Unmarshal` failure (line 277–285, carrying the body
preview). -/
inductive FetchErr where
  | transport (msg : String)
  | httpStatus (code : Nat) (body : String)
  | decode (preview : String)
deriving DecidableEq, Repr

/-- Embedding of `main.go` lines 279–283: the debug preview attached to a
decode failure — the whole body when its length is at most 100, otherwise
its first 100 characters followed by an ellipsis marker. -/
def bodyPreview (body : String) : String :=
  if body.length > 100 then body.take 100 ++ "..." else body

/-- Embedding of `fetchData` (`main.go` lines 239–288), parametrised by the
JSON decoder (`json.Unmarshal` into `Response`) and the HTTP outcome.
Faithful to the source order: transport errors first, then the status
check `resp.StatusCode != http.StatusOK` (i.e. `!= 200`), then decoding.
There is no retry of any kind. -/
def fetchData (decode : String → Option Resp) : HTTPOutcome → Except FetchErr Resp
  | .transportErr m => .error (.transport m)
  | .response status body =>
    if status ≠ 200 then .error (.httpStatus status body)
    else
      match decode body with
      | none => .error (.decode (bodyPreview body))
      | some r => .ok r

/-! ## Worker iteration and result sink -/

/-- `PageResult` (`main.go` lines 291–295).  `rows` is an `Option` because
Go distinguishes a nil slice (the error case, line 439) from a non-nil
empty slice (the missing-block case, line 445), and the sink tests
`result.Rows != nil` (line 375). -/
structure PageResult where
  pageNum : Nat
  rows : Option (List (List Cell))
  err : Option FetchErr
deriving DecidableEq, Repr

/-- One worker-loop iteration body after the cancellation check
(`main.go` lines 426–455), given the outcome of its `fetchData` call.
Returns the `PageResult` sent on the `results` channel and whether the
iteration reached `time.Sleep(df.requestDelay)` (line 454).  Note both
error paths end in `continue` (lines 440, 446), which jumps past the
sleep. -/
def workerIter (task : PageTask) (fetched : Except FetchErr Resp) :
    PageResult × Bool :=
  match fetched with
  | .error e => (⟨task.pageNum, none, some e⟩, false)
  | .ok resp =>
    match resp.blocks.lookup "result" with
    | none => (⟨task.pageNum, some [], none⟩, false)
    | some rb => (⟨task.pageNum, some rb.rows, none⟩, true)

/-- Observable state of the result-consuming goroutine
(`main.go` lines 365–391): the `totalRows` counter, the rows written to
the CSV in order, and the number of per-page failure lines printed at
line 372. -/
structure SinkState where
  totalRows : Nat
  written : List (List String)
  failLines : Nat
deriving DecidableEq, Repr

/-- Processing of one `PageResult` by the sink (loop body, lines 370–390):
an errored result prints a failure line and is skipped; nil rows are
skipped silently; otherwise every row is coerced via the cell coercion
and written, bumping `totalRows` once per row. -/
def sinkStep (s : SinkState) (r : PageResult) : SinkState :=
  match r.err with
  | some _ => { s with failLines := s.failLines + 1 }
  | none =>
    match r.rows with
    | none => s
    | some rows =>
      { s with
        totalRows := s.totalRows + rows.length
        written := s.written ++ rows.map rowToStrings }

/-- The sink run over the stream of results in their arrival order,
starting from the zero counters (`totalRows := 0`, line 367). -/
def sinkRun (results : List PageResult) : SinkState :=
  results.foldl sinkStep ⟨0, [], 0⟩

/-- The number of `PageResult`s carrying an error in a stream — the `k`
of the failed-pages claims (a specification-side count; the Go code
keeps no such counter). -/
def failedCount (results : List PageResult) : Nat :=
  results.countP (fun r => r.err.isSome)

/-- The run summary the program actually reports: the printed final line
(`main.go` lines 466–471) and the function's return value (line 472) both
carry exactly `totalRows` and nothing else. -/
def runSummary (results : List PageResult) : Nat :=
  (sinkRun results).totalRows

/-! ## The run skeleton (`FetchAllDataMultithread`, `main.go` lines 298–473)

The control flow up to the start of the worker pool is sequential in the
source and is embedded directly.  The concurrent phase is sequentialised
here in task order; order-sensitivity and task ownership are treated by
the separate channel model below, and the sink counters are proved
order-insensitive where a claim needs it. -/

/-- Externally observable effects of one run. `ret` is the
`(int, error)` return value; `fileCreated` records whether
`os.Create(csvFilename)` (line 342) was reached; `tasks` the generated
page descriptors; `pagesFetched` the number of page fetches issued beyond
the priming call. -/
structure RunEffects where
  ret : Except String Nat
  fileCreated : Bool
  tasks : List PageTask
  pagesFetched : Nat
deriving Repr

/-- Embedding of `FetchAllDataMultithread` (`main.go` lines 298–473),
parametrised by the priming fetch outcome (lines 310–323) and the
per-task page fetch outcomes.  Branches in source order: priming error →
error return before any file or descriptor exists (lines 321–323);
missing `"result"` block → error return (lines 325–328); zero
`totalCount` → `(0, nil)` return before file creation (lines 331–334);
otherwise the file is created, tasks are generated and the worker/sink
phase runs. -/
def runFetchAll (pageSize : Nat) (priming : Except FetchErr Resp)
    (pageFetch : PageTask → Except FetchErr Resp) : RunEffects :=
  match priming with
  | .error _ => ⟨.error "首次请求失败", false, [], 0⟩
  | .ok resp =>
    match resp.blocks.lookup "result" with
    | none => ⟨.error "响应数据格式异常", false, [], 0⟩
    | some rb =>
      if rb.count = 0 then ⟨.ok 0, false, [], 0⟩
      else
        let tasks := genTasks rb.count pageSize
        let results := tasks.map (fun t => (workerIter t (pageFetch t)).1)
        ⟨.ok (sinkRun results).totalRows, true, tasks, tasks.length⟩

/-! ## The shared request template (`buildPayload` / payload injection)

Go semantics note for lines 427–434: `payload := basePayload` copies the
`Payload` struct, but `Payload.Blocks` is a Go map — a reference — and
`payload.Blocks["result"].Attr` holds a reference to the very
`map[string]interface{}` created once in `buildPayload` (lines 208–212).
The stores `resultAttr["limit"] = ...`, `resultAttr["offset"] = ...`
therefore write to a heap cell shared with `basePayload`, and the
write-back at lines 432–434 stores into the shared `Blocks` map itself.
`TemplateState` below is that shared heap cell. -/

/-- An attribute value in the result block's attr map. -/
inductive AttrVal where
  | int (i : Nat)
  | str (s : String)
deriving DecidableEq, Repr

/-- Go map assignment `m[k] = v` on an association list: replaces the
binding of `k` if present, otherwise adds it. -/
def attrSet : List (String × AttrVal) → String → AttrVal → List (String × AttrVal)
  | [], k, v => [(k, v)]
  | (k', v') :: rest, k, v =>
    if k' = k then (k, v) :: rest else (k', v') :: attrSet rest k v

/-- The shared mutable heap cell behind
`basePayload.Blocks["result"].Attr`: one attr map, aliased by the base
payload and every shallow copy of it. -/
structure TemplateState where
  resultAttr : List (String × AttrVal)
deriving DecidableEq, Repr

/-- The result block's attr map as `buildPayload` creates it
(`main.go` lines 208–212): `limit: 10, offset: 10, showCount: "true"`. -/
def buildResultAttr : TemplateState :=
  ⟨[("limit", .int 10), ("offset", .int 10), ("showCount", .str "true")]⟩

/-- Embedding of the injection at `main.go` lines 426–434 (the same code
appears for the priming call at lines 311–318): sets `limit` and `offset`
in the (shared) attr map in place.  Returns the post-state of the shared
cell and the attr map the outgoing request is marshalled from — the same
map, since no copy of it is ever made. -/
def injectPage (t : TemplateState) (pageSize off : Nat) :
    TemplateState × List (String × AttrVal) :=
  let m := attrSet (attrSet t.resultAttr "limit" (.int pageSize)) "offset" (.int off)
  (⟨m⟩, m)

/-! ## The task channel fan-out (`tasks`, `main.go` lines 358–361, 414–418)

Go buffered channels deliver each sent value to exactly one receiver;
a receive is one atomic step.  The model below therefore takes the
enqueued task list and lets an arbitrary scheduler pick, at each step,
which worker performs the next receive. -/

/-- State of the task-channel fan-out for `n` workers: the values still
in the channel, in send order, and for each worker the tasks it has
received so far (most recent first). -/
structure ChanState (n : Nat) where
  pending : List PageTask
  taken : Fin n → List PageTask

/-- The channel state when the population goroutine has enqueued `tasks`
and no worker has received yet. -/
def initChan (n : Nat) (tasks : List PageTask) : ChanState n :=
  ⟨tasks, fun _ => []⟩

/-- One atomic channel receive (`for task := range tasks`, line 418):
some worker `w` chosen by the scheduler removes the head of the channel
and appends it to its own received list. -/
inductive ChanStep (n : Nat) : ChanState n → ChanState n → Prop where
  | recv (w : Fin n) (t : PageTask) (rest : List PageTask)
      (taken : Fin n → List PageTask) :
      ChanStep n ⟨t :: rest, taken⟩ ⟨rest, Function.update taken w (t :: taken w)⟩

/-- Reachability under any interleaving of receives. -/
inductive ChanReach (n : Nat) : ChanState n → ChanState n → Prop where
  | refl (s : ChanState n) : ChanReach n s s
  | step {s s' s'' : ChanState n} :
      ChanReach n s s' → ChanStep n s' s'' → ChanReach n s s''

/-- How many times task `t` occurs in the whole system: still pending
plus delivered to any worker. -/
def occCount {n : Nat} (s : ChanState n) (t : PageTask) : Nat :=
  s.pending.count t + ∑ w : Fin n, (s.taken w).count t

/-! ## Specification-side definitions

These are written from the spec's words, to be compared with the
source-derived definitions above. -/

/-- Mathematical ceiling division `ceil(a / b)` on naturals, as the spec
writes it — defined independently of the code's `(a + b - 1) / b`. -/
def ceilNat (a b : Nat) : Nat :=
  a / b + if a % b = 0 then 0 else 1

/-- The rows a single `PageResult` contributes to the output: zero when
errored or nil, otherwise its row count. -/
def rowContrib (r : PageResult) : Nat :=
  match r.err with
  | some _ => 0
  | none =>
    match r.rows with
    | none => 0
    | some rows => rows.length

/-- A decoder that accepts every body (used to exhibit concrete
fetch outcomes). -/
def decodeAny : String → Option Resp :=
  fun _ => some ⟨[]⟩

/-- A concrete channel state: two tasks enqueued, worker 0 has received
the first. -/
def chanDemoState : ChanState 2 :=
  ⟨[⟨2, 1⟩], Function.update (fun _ => []) 0 [⟨1, 0⟩]⟩

/-- A concrete per-page outcome assignment for a two-page run: page
index 0 succeeds with two rows, page index 1 fails with a transport
error. -/
def demoOutcome : Nat → PageResult := fun p =>
  if p = 0 then ⟨1, some [[Cell.str "a"], [Cell.null]], none⟩
  else ⟨2, none, some (.transport "x")⟩

/-- The two demo page results arriving in reverse page order. -/
def demoArrival : List PageResult :=
  [demoOutcome 1, demoOutcome 0]

/-! ## Helper lemmas -/

/-- Appending a string to a single tab gives the tab back exactly when
the appended string is empty. -/
theorem tab_append_eq_tab (s : String) : "\t" ++ s = "\t" ↔ s = "" := by
  constructor
  · intro h
    have hd := congrArg String.data h
    rw [String.data_append] at hd
    have h2 : "\t".data ++ s.data = "\t".data ++ [] := by simpa using hd
    have h3 := List.append_cancel_left h2
    cases s with
    | mk d => exact congrArg String.mk h3
  · intro h
    subst h
    exact String.append_empty "\t"

/-- The decode-failure preview: at most 103 characters, and the body
itself when the body is short. -/
theorem bodyPreview_spec (body : String) :
    (bodyPreview body).length ≤ 103 ∧ (body.length ≤ 100 → bodyPreview body = body) := by
  constructor
  · unfold bodyPreview
    by_cases h : body.length > 100
    · rw [if_pos h, String.length_append]
      have h2 : ∀ t : String, t.length = t.data.length := fun t => by
        cases t; rfl
      have h3 : (body.take 100).data = body.data.take 100 := String.data_take body 100
      have h4 : (body.take 100).length ≤ 100 := by
        rw [h2, h3, List.length_take]; omega
      have h5 : ("..." : String).length = 3 := rfl
      omega
    · rw [if_neg h]; omega
  · intro hh
    unfold bodyPreview
    rw [if_neg (by omega)]

/-! ## C2 — null vs empty-string cells in the output -/

/-- C2 counterexample: the record `[null]` and the record `[""]` produce
the very same output row (both cells coerce to a bare tab), while the
source cells differ — so reading the output back cannot decide whether
the source cell was null or the empty string.  The claim as stated is
false. -/
theorem c2_null_empty_indistinguishable :
    rowToStrings [Cell.null] = rowToStrings [Cell.str ""] ∧
    Cell.null ≠ Cell.str "" := by
  constructor
  · rfl
  · intro h; cases h

/-- C2 amended: every cell's output string is a tab followed by the
cell's display string (the tab-prefix convention); consequently the
coercion of a string cell collides with that of a null cell exactly when
the string is empty — null is distinguishable from every non-empty
string cell but not from the empty-string cell. -/
theorem c2_cell_coercion_amended :
    (∀ c : Cell, cellToString c = "\t" ++ c.display) ∧
    (∀ s : String, cellToString (Cell.str s) = cellToString Cell.null ↔ s = "") := by
  constructor
  · intro c
    cases c with
    | null => exact (String.append_empty "\t").symm
    | str s => rfl
    | other d => rfl
  · intro s
    show "\t" ++ s = "\t" ↔ s = ""
    exact tab_append_eq_tab s

/-! ## C4 — page plan: count, offsets, order -/

/-- C4: for `totalCount ≥ 0` and `pageSize > 0`, the computed page count
is exactly `ceil(totalCount / pageSize)`, and the generated tasks are
exactly one per page index `i < totalPages`, with offset `i * pageSize`
and page number `i + 1`, enqueued in ascending offset order with no gaps
or duplicates (their offset list is exactly the image of
`0, 1, ..., totalPages-1` under `· * pageSize`, strictly increasing). -/
theorem c4_page_plan (tc ps : Nat) (hps : 0 < ps) :
    totalPagesOf tc ps = ceilNat tc ps ∧
    (genTasks tc ps).map PageTask.offset
      = (List.range (totalPagesOf tc ps)).map (fun i => i * ps) ∧
    ((genTasks tc ps).map PageTask.offset).Pairwise (· < ·) ∧
    (genTasks tc ps).map PageTask.pageNum
      = (List.range (totalPagesOf tc ps)).map (fun i => i + 1) := by
  have hoff : (genTasks tc ps).map PageTask.offset
      = (List.range (totalPagesOf tc ps)).map (fun i => i * ps) := by
    unfold genTasks
    rw [List.map_map]
    rfl
  refine ⟨?_, hoff, ?_, ?_⟩
  · unfold totalPagesOf ceilNat
    obtain ⟨q, r, hr, htc⟩ : ∃ q r, r < ps ∧ tc = ps * q + r :=
      ⟨tc / ps, tc % ps, Nat.mod_lt _ hps, (Nat.div_add_mod tc ps).symm⟩
    subst htc
    rw [Nat.mul_add_div hps, Nat.div_eq_of_lt hr, Nat.mul_add_mod, Nat.mod_eq_of_lt hr]
    by_cases h0 : r = 0
    · subst h0
      have he : ps * q + 0 + ps - 1 = ps * q + (ps - 1) := by omega
      rw [he, Nat.mul_add_div hps, Nat.div_eq_of_lt (by omega)]
      simp
    · have he : ps * q + r + ps - 1 = ps * (q + 1) + (r - 1) := by
        rw [Nat.mul_succ]; omega
      rw [he, Nat.mul_add_div hps, Nat.div_eq_of_lt (by omega)]
      simp [h0]
  · rw [hoff, List.pairwise_map]
    exact (List.pairwise_lt_range _).imp fun h => (Nat.mul_lt_mul_right hps).mpr h
  · unfold genTasks
    rw [List.map_map]
    rfl

/-- C4 witness at the spec's own scenario `totalCount = 2500`,
`pageSize = 1000`: three pages, offsets `0, 1000, 2000`. -/
theorem c4_page_plan_witness :
    0 < 1000 ∧
    (totalPagesOf 2500 1000 = ceilNat 2500 1000 ∧
      (genTasks 2500 1000).map PageTask.offset
        = (List.range (totalPagesOf 2500 1000)).map (fun i => i * 1000) ∧
      ((genTasks 2500 1000).map PageTask.offset).Pairwise (· < ·) ∧
      (genTasks 2500 1000).map PageTask.pageNum
        = (List.range (totalPagesOf 2500 1000)).map (fun i => i + 1)) :=
  ⟨by decide, c4_page_plan 2500 1000 (by decide)⟩

/-! ## C5 — single page fetch failure taxonomy -/

/-- C5 counterexample: the code treats only status 200 as success, not
all of 2xx — a 204 response whose body decodes fine is still rejected
with an HTTPStatus failure; and the decode-failure preview of a 200-char
body has 103 characters (100 plus the ellipsis marker), not at most
100.  The claim as stated is false on both counts. -/
theorem c5_status_and_preview_counterexample :
    fetchData decodeAny (.response 204 "{}") = .error (.httpStatus 204 "{}") ∧
    (bodyPreview (String.mk (List.replicate 200 'a'))).length = 103 := by
  constructor
  · rfl
  · set_option maxRecDepth 4096 in decide

/-- C5 amended: a fetch fails exactly in these cases and succeeds
otherwise — a non-200 status (including every other 2xx code) yields an
HTTPStatus failure carrying the code and the full body; an undecodable
body on a 200 response yields a Decode failure whose preview is the body
itself when it has at most 100 characters and otherwise its first 100
characters plus an ellipsis marker (at most 103 characters in all); a
network/timeout error yields a Transport failure; every status-200
response with a well-formed body is a success; and no failure is retried
by this component. -/
theorem c5_fetch_failure_cases (decode : String → Option Resp) :
    (∀ m, fetchData decode (.transportErr m) = .error (.transport m)) ∧
    (∀ st body, st ≠ 200 →
      fetchData decode (.response st body) = .error (.httpStatus st body)) ∧
    (∀ body, decode body = none →
      fetchData decode (.response 200 body) = .error (.decode (bodyPreview body)) ∧
      (bodyPreview body).length ≤ 103 ∧
      (body.length ≤ 100 → bodyPreview body = body)) ∧
    (∀ body r, decode body = some r →
      fetchData decode (.response 200 body) = .ok r) := by
  refine ⟨fun m => rfl, ?_, ?_, ?_⟩
  · intro st body hst
    simp [fetchData, hst]
  · intro body hdec
    refine ⟨?_, (bodyPreview_spec body).1, (bodyPreview_spec body).2⟩
    simp [fetchData, hdec]
  · intro body r hdec
    simp [fetchData, hdec]

/-- C5 witness: the amended taxonomy applied at concrete inputs — a 500
status, an undecodable short body, and a decodable body. -/
theorem c5_fetch_failure_cases_witness :
    fetchData (fun _ => none) (.transportErr "timeout")
      = .error (.transport "timeout") ∧
    (500 ≠ 200 ∧
      fetchData (fun _ => none) (.response 500 "oops")
        = .error (.httpStatus 500 "oops")) ∧
    ((fun (_ : String) => (none : Option Resp)) "bad" = none ∧
      fetchData (fun _ => none) (.response 200 "bad")
        = .error (.decode (bodyPreview "bad"))) ∧
    (decodeAny "{}" = some ⟨[]⟩ ∧
      fetchData decodeAny (.response 200 "{}") = .ok ⟨[]⟩) :=
  ⟨(c5_fetch_failure_cases (fun _ => none)).1 "timeout",
   ⟨by decide, (c5_fetch_failure_cases (fun _ => none)).2.1 500 "oops" (by decide)⟩,
   ⟨rfl, ((c5_fetch_failure_cases (fun _ => none)).2.2.1 "bad" rfl).1⟩,
   ⟨rfl, (c5_fetch_failure_cases decodeAny).2.2.2 "{}" ⟨[]⟩ rfl⟩⟩

/-! ## C6 — worker iteration: emission and pacing -/

/-- C6 counterexample: after a failed fetch the worker emits the errored
`PageResult` but `continue`s straight to the next descriptor — the
iteration does not reach `time.Sleep`, so the pacing delay does not occur
after failed fetches.  The claim as stated is false. -/
theorem c6_no_sleep_after_failure :
    (workerIter ⟨1, 0⟩ (.error (.transport "timeout"))).1
      = ⟨1, none, some (.transport "timeout")⟩ ∧
    (workerIter ⟨1, 0⟩ (.error (.transport "timeout"))).2 = false := by
  exact ⟨rfl, rfl⟩

/-- C6 amended: in every iteration the worker emits a `PageResult`
tagged with the descriptor's page number regardless of success or
failure, but it sleeps the pacing delay only when the fetch succeeded
and its response contains the `"result"` block; after a failed fetch
(or a missing-block response) it pulls the next descriptor without
sleeping. -/
theorem c6_worker_iter_amended (task : PageTask) (fetched : Except FetchErr Resp) :
    (workerIter task fetched).1.pageNum = task.pageNum ∧
    ((workerIter task fetched).2 = true ↔
      ∃ resp rb, fetched = .ok resp ∧ resp.blocks.lookup "result" = some rb) := by
  cases fetched with
  | error e => simp [workerIter]
  | ok resp =>
    cases h : resp.blocks.lookup "result" with
    | none => simp [workerIter, h]
    | some rb => simp [workerIter, h]

/-! ## C1 — the shared request template is mutated, not copied -/

/-- C1: the claim (and the source comment at line 426, "copy payload")
says every fetch derives a fresh deep copy of the base payload, so the
base template's result-block attr would keep its original
`limit = 10, offset = 10` after any fetch.  In fact `payload :=
basePayload` only copies the struct while the `Blocks` map and the attr
map inside it are shared references, so the injection writes through to
the base template: after the very first (priming) injection with
`pageSize = 1000, offset = 0` the shared attr map holds the injected
values, and a second worker's injection (offset 2000) overwrites what
the first worker (offset 1000) is about to marshal — each fetch can
observe another's injected values.  This theorem evaluates the embedded
heap-aliasing semantics at those inputs. -/
theorem c1_template_mutation_bug :
    (buildResultAttr.resultAttr.lookup "limit" = some (.int 10) ∧
      buildResultAttr.resultAttr.lookup "offset" = some (.int 10)) ∧
    ((injectPage buildResultAttr 1000 0).1.resultAttr.lookup "limit"
        = some (.int 1000) ∧
      (injectPage buildResultAttr 1000 0).1.resultAttr.lookup "offset"
        = some (.int 0)) ∧
    (injectPage (injectPage buildResultAttr 1000 1000).1 1000 2000).2.lookup "offset"
      = some (.int 2000) := by
  decide

/-! ## C7 — zero total count terminates the run immediately -/

/-- C7: if the priming response's result block reports `count == 0`, the
run returns `(0, nil)` at once — a successful return with zero rows
written, zero page descriptors generated, no page fetch beyond the
priming call, and (the return sits before `os.Create`) no output file
either. -/
theorem c7_zero_total_count (ps : Nat) (pf : PageTask → Except FetchErr Resp)
    (resp : Resp) (rb : RespBlock)
    (hlookup : resp.blocks.lookup "result" = some rb) (hzero : rb.count = 0) :
    runFetchAll ps (.ok resp) pf = ⟨.ok 0, false, [], 0⟩ := by
  simp [runFetchAll, hlookup, hzero]

/-- C7 witness: a concrete priming response with `count = 0`. -/
theorem c7_zero_total_count_witness :
    runFetchAll 1000 (.ok ⟨[("result", ⟨[], 0⟩)]⟩)
        (fun _ => .error (.transport "unreachable"))
      = ⟨.ok 0, false, [], 0⟩ :=
  c7_zero_total_count 1000 (fun _ => .error (.transport "unreachable"))
    ⟨[("result", ⟨[], 0⟩)]⟩ ⟨[], 0⟩ rfl rfl

/-! ## C8 — priming failure aborts the run -/

/-- C8: if the priming fetch fails for any reason, the run returns the
wrapped error at once, before the output file is created and before any
page descriptor is generated or any further page fetch issued. -/
theorem c8_priming_failure (ps : Nat) (pf : PageTask → Except FetchErr Resp)
    (e : FetchErr) :
    (runFetchAll ps (.error e) pf).ret = .error "首次请求失败" ∧
    (runFetchAll ps (.error e) pf).fileCreated = false ∧
    (runFetchAll ps (.error e) pf).tasks = [] ∧
    (runFetchAll ps (.error e) pf).pagesFetched = 0 := by
  exact ⟨rfl, rfl, rfl, rfl⟩

/-! ## C10 — responses without a "result" block -/

/-- C10: a worker whose page response decodes but has no `"result"`
block emits a successful `PageResult` with an empty (non-nil) row list
and no error; the sink treats that result as neither a failure nor data
(its state is unchanged by it).  The same missing-block condition on the
priming response instead aborts the whole run with an error, before file
creation. -/
theorem c10_missing_result_block (t : PageTask) (resp : Resp) (ps : Nat)
    (pf : PageTask → Except FetchErr Resp) (s : SinkState)
    (hmiss : resp.blocks.lookup "result" = none) :
    workerIter t (.ok resp) = (⟨t.pageNum, some [], none⟩, false) ∧
    sinkStep s ⟨t.pageNum, some [], none⟩ = s ∧
    (runFetchAll ps (.ok resp) pf).ret = .error "响应数据格式异常" ∧
    (runFetchAll ps (.ok resp) pf).fileCreated = false := by
  refine ⟨?_, ?_, ?_, ?_⟩
  · simp [workerIter, hmiss]
  · simp [sinkStep]
  · simp [runFetchAll, hmiss]
  · simp [runFetchAll, hmiss]

/-- C10 witness: a concrete decoded response whose block map lacks
`"result"`. -/
theorem c10_missing_result_block_witness :
    workerIter ⟨2, 1000⟩ (.ok ⟨[("inqu_status", ⟨[], 7⟩)]⟩)
        = (⟨2, some [], none⟩, false) ∧
    sinkStep ⟨5, [["\ta"]], 1⟩ ⟨2, some [], none⟩ = ⟨5, [["\ta"]], 1⟩ ∧
    (runFetchAll 1000 (.ok ⟨[("inqu_status", ⟨[], 7⟩)]⟩)
        (fun _ => .error (.transport "unreachable"))).ret
      = .error "响应数据格式异常" ∧
    (runFetchAll 1000 (.ok ⟨[("inqu_status", ⟨[], 7⟩)]⟩)
        (fun _ => .error (.transport "unreachable"))).fileCreated = false :=
  c10_missing_result_block ⟨2, 1000⟩ ⟨[("inqu_status", ⟨[], 7⟩)]⟩ 1000
    (fun _ => .error (.transport "unreachable")) ⟨5, [["\ta"]], 1⟩ rfl

/-! ## Sink accounting lemmas -/

/-- One sink step adds exactly the result's row contribution to
`totalRows`. -/
theorem sinkStep_totalRows (s : SinkState) (r : PageResult) :
    (sinkStep s r).totalRows = s.totalRows + rowContrib r := by
  unfold sinkStep rowContrib
  cases r.err with
  | some e => simp
  | none => cases r.rows <;> simp

/-- One sink step prints a failure line exactly for an errored result. -/
theorem sinkStep_failLines (s : SinkState) (r : PageResult) :
    (sinkStep s r).failLines = s.failLines + (if r.err.isSome then 1 else 0) := by
  unfold sinkStep
  cases r.err with
  | some e => simp
  | none => cases r.rows <;> simp

/-- Rows written by a sink run from an arbitrary start state. -/
theorem sinkFold_totalRows (rs : List PageResult) (s : SinkState) :
    (rs.foldl sinkStep s).totalRows = s.totalRows + (rs.map rowContrib).sum := by
  induction rs generalizing s with
  | nil => simp
  | cons r rs ih =>
    rw [List.foldl_cons, ih, sinkStep_totalRows, List.map_cons, List.sum_cons]
    omega

/-- Failure lines printed by a sink run from an arbitrary start state. -/
theorem sinkFold_failLines (rs : List PageResult) (s : SinkState) :
    (rs.foldl sinkStep s).failLines = s.failLines + failedCount rs := by
  induction rs generalizing s with
  | nil => simp [failedCount]
  | cons r rs ih =>
    rw [List.foldl_cons, ih, sinkStep_failLines]
    unfold failedCount
    rw [List.countP_cons]
    simp only [Option.isSome]
    cases r.err with
    | none => simp
    | some e => simp; omega

/-- The rows the sink writes over a whole run. -/
theorem sinkRun_totalRows (rs : List PageResult) :
    (sinkRun rs).totalRows = (rs.map rowContrib).sum := by
  unfold sinkRun
  rw [sinkFold_totalRows]
  simp

/-- The failure lines the sink prints over a whole run: exactly one per
errored result. -/
theorem sinkRun_failLines (rs : List PageResult) :
    (sinkRun rs).failLines = failedCount rs := by
  unfold sinkRun
  rw [sinkFold_failLines]
  simp

/-- Summing the per-page record capacities `min pageSize (totalCount -
p * pageSize)` over the first `m` pages gives `min totalCount
(m * pageSize)`. -/
theorem sum_min_pageItems (tc ps : Nat) (m : Nat) :
    ((List.range m).map (fun p => min ps (tc - p * ps))).sum = min tc (m * ps) := by
  induction m with
  | zero => simp
  | succ m ih =>
    rw [List.range_succ, List.map_append, List.sum_append, ih]
    simp only [List.map_cons, List.map_nil, List.sum_cons, List.sum_nil]
    rw [Nat.succ_mul]
    generalize m * ps = a
    omega

/-! ## C3 — failed pages and the final summary -/

/-- C3 counterexample: the run summary the program reports (its return
value and the printed final line carry only `totalRows`) is identical
for a run whose single page succeeded with zero rows and for a run whose
single page failed — two runs with `k = 0` and `k = 1` failed pages are
indistinguishable in the summary, so the summary does not report
`failedPages == k`; the sink maintains no failed-page counter at all. -/
theorem c3_no_failed_counter_counterexample :
    runSummary [⟨1, some [], none⟩]
        = runSummary [⟨1, none, some (.transport "x")⟩] ∧
    failedCount [(⟨1, some [], none⟩ : PageResult)] = 0 ∧
    failedCount [(⟨1, none, some (.transport "x")⟩ : PageResult)] = 1 := by
  exact ⟨rfl, rfl, rfl⟩

/-- C3 amended: the sink maintains no failed-page counter; for every run
in which exactly k PageResults carry an error it prints exactly k
per-page failure lines (one per errored result, its only per-failure
accounting) and skips their rows, while the final summary reports only
the row count; and `rowsWritten ≤ totalCount` holds whenever every
successful page carries at most the records remaining at its offset. -/
theorem c3_sink_amended (tc ps : Nat) (outcome : Nat → PageResult)
    (arrival : List PageResult)
    (hperm : arrival.Perm ((List.range (totalPagesOf tc ps)).map outcome))
    (hbound : ∀ p, p < totalPagesOf tc ps →
      rowContrib (outcome p) ≤ min ps (tc - p * ps)) :
    (sinkRun arrival).failLines = failedCount arrival ∧
    (sinkRun arrival).totalRows ≤ tc := by
  refine ⟨sinkRun_failLines arrival, ?_⟩
  rw [sinkRun_totalRows]
  have h1 : (arrival.map rowContrib).sum
      = (((List.range (totalPagesOf tc ps)).map outcome).map rowContrib).sum :=
    (hperm.map rowContrib).sum_eq
  rw [h1, List.map_map]
  have h2 : ((List.range (totalPagesOf tc ps)).map (rowContrib ∘ outcome)).sum
      ≤ ((List.range (totalPagesOf tc ps)).map
          (fun p => min ps (tc - p * ps))).sum := by
    apply List.sum_le_sum
    intro p hp
    exact hbound p (List.mem_range.mp hp)
  calc ((List.range (totalPagesOf tc ps)).map (rowContrib ∘ outcome)).sum
      ≤ _ := h2
    _ = min tc (totalPagesOf tc ps * ps) := sum_min_pageItems tc ps _
    _ ≤ tc := Nat.min_le_left _ _

/-- C3 witness: `totalCount = 3`, `pageSize = 2` (two pages), page 1
succeeding with two rows, page 2 failing, results arriving out of
order: one failure line, two rows written, `2 ≤ 3`. -/
theorem c3_sink_amended_witness :
    (sinkRun demoArrival).failLines = failedCount demoArrival ∧
    (sinkRun demoArrival).totalRows ≤ 3 :=
  c3_sink_amended 3 2 demoOutcome demoArrival (by decide)
    (by
      intro p hp
      rcases p with _ | _ | p
      · decide
      · decide
      · have h2 : totalPagesOf 3 2 = 2 := rfl
        omega)

/-! ## Channel fan-out: occurrence-count invariant and C9 -/

/-- One channel receive moves the head task from the channel into one
worker's received list and changes no occurrence count. -/
theorem chanStep_occCount {n : Nat} {s s' : ChanState n}
    (h : ChanStep n s s') (t : PageTask) :
    occCount s' t = occCount s t := by
  cases h with
  | recv w a rest taken =>
    unfold occCount
    have split1 : (∑ w' : Fin n, ((Function.update taken w (a :: taken w)) w').count t)
        = (∑ w' in Finset.univ \ {w}, (taken w').count t) + (a :: taken w).count t := by
      rw [Finset.sum_eq_sum_diff_singleton_add (Finset.mem_univ w)]
      congr 1
      · apply Finset.sum_congr rfl
        intro x hx
        have hxw : x ≠ w := by
          rcases Finset.mem_sdiff.mp hx with ⟨_, hx2⟩
          simpa using hx2
        rw [Function.update_noteq hxw]
      · rw [Function.update_same]
    have split2 : (∑ w' : Fin n, (taken w').count t)
        = (∑ w' in Finset.univ \ {w}, (taken w').count t) + (taken w).count t :=
      Finset.sum_eq_sum_diff_singleton_add (Finset.mem_univ w) _
    simp only at split1 split2 ⊢
    rw [split1, split2]
    by_cases hat : a = t
    · simp [List.count_cons, hat]
      omega
    · simp [List.count_cons, hat]

/-- Occurrence counts are invariant under any interleaving of
receives. -/
theorem chanReach_occCount {n : Nat} {s s' : ChanState n}
    (h : ChanReach n s s') (t : PageTask) :
    occCount s' t = occCount s t := by
  induction h with
  | refl => rfl
  | step hr hs ih => rw [chanStep_occCount hs, ih]

/-- In the initial state a task occurs exactly as often as it was
enqueued. -/
theorem occCount_init (n : Nat) (tasks : List PageTask) (t : PageTask) :
    occCount (initChan n tasks) t = tasks.count t := by
  unfold occCount initChan
  simp

/-- The generated page tasks are pairwise distinct (their page numbers
already are). -/
theorem genTasks_nodup (tc ps : Nat) : (genTasks tc ps).Nodup := by
  unfold genTasks
  refine List.Nodup.map ?_ (List.nodup_range _)
  intro a b hab
  have h := congrArg PageTask.pageNum hab
  simpa using h

/-- C9: for every run and every page descriptor placed in the task
queue, under any interleaving of any number of concurrent workers, the
descriptor is delivered to at most one worker: in every reachable
channel state the total number of deliveries of a descriptor across all
workers is at most one, and in particular two workers holding the same
descriptor are the same worker. -/
theorem c9_mutual_exclusion (tc ps n : Nat) (s : ChanState n)
    (hreach : ChanReach n (initChan n (genTasks tc ps)) s) (t : PageTask) :
    (∑ w : Fin n, (s.taken w).count t) ≤ 1 ∧
    ∀ w1 w2 : Fin n, t ∈ s.taken w1 → t ∈ s.taken w2 → w1 = w2 := by
  have hocc : occCount s t = (genTasks tc ps).count t := by
    rw [chanReach_occCount hreach, occCount_init]
  have hle : (genTasks tc ps).count t ≤ 1 :=
    List.nodup_iff_count_le_one.mp (genTasks_nodup tc ps) t
  have hsum : (∑ w : Fin n, (s.taken w).count t) ≤ 1 := by
    unfold occCount at hocc
    omega
  refine ⟨hsum, ?_⟩
  intro w1 w2 h1 h2
  by_contra hne
  have hc1 : 0 < (s.taken w1).count t := List.count_pos_iff.mpr h1
  have hc2 : 0 < (s.taken w2).count t := List.count_pos_iff.mpr h2
  have hpair : (s.taken w1).count t + (s.taken w2).count t
      ≤ ∑ w : Fin n, (s.taken w).count t := by
    have hps : (∑ w in ({w1, w2} : Finset (Fin n)), (s.taken w).count t)
        = (s.taken w1).count t + (s.taken w2).count t :=
      Finset.sum_pair hne
    rw [← hps]
    exact Finset.sum_le_sum_of_subset (Finset.subset_univ _)
  omega

/-- C9 witness: two workers over the two-task plan of
`totalCount = 2, pageSize = 1`; after worker 0 receives the first task,
the reachable state satisfies the mutual-exclusion conclusion for that
task. -/
theorem c9_mutual_exclusion_witness :
    (∑ w : Fin 2, ((chanDemoState.taken w).count ⟨1, 0⟩)) ≤ 1 ∧
    ∀ w1 w2 : Fin 2, (⟨1, 0⟩ : PageTask) ∈ chanDemoState.taken w1 →
      (⟨1, 0⟩ : PageTask) ∈ chanDemoState.taken w2 → w1 = w2 :=
  c9_mutual_exclusion 2 1 2 chanDemoState
    (ChanReach.step (ChanReach.refl _)
      (ChanStep.recv 0 ⟨1, 0⟩ [⟨2, 1⟩] (fun _ => []))) ⟨1, 0⟩

end FetchGo
